import Mathlib

/-!
# Verification of the gRPC connection manager

Shallow embedding of the core components of the `grpc-connection-manager`
repository: the per-method circuit breaker (`internal/interceptors`,
`CircuitBreaker.Call` and `CircuitBreakerInterceptor`), the retry
interceptor (`RetryInterceptor`), and the connection manager
(`internal/manager`: `GetConnection`, `Close`, `GetConnectionsCount`,
`Config.Validate`, `HealthCheck`).

Modelling conventions:
* Go errors are `GoError` values: `isStatus` records whether the error
  carries a gRPC status (the `ok` result of `status.FromError`), `code`
  its status code, `msg` its message.  `none : Option GoError` is Go's
  `nil` error.
* `time.Time` / `time.Duration` are modelled as `Nat` instants on a
  monotone clock; `time.Since(t)` at instant `now` is `now - t`.
* Go `int` counters and thresholds are modelled as `Int`.
* Side effects that return nothing and influence no claim (logging,
  Prometheus metric updates) are dropped; side effects that matter
  (which handles got `Close()` called, whether the downstream invoker
  ran, whether a dial happened) are returned explicitly.
-/

/-- gRPC status codes (numeric values of `google.golang.org/grpc/codes`). -/
def codeUnknown : Nat := 2

/-- `codes.DeadlineExceeded`. -/
def codeDeadlineExceeded : Nat := 4

/-- `codes.ResourceExhausted`. -/
def codeResourceExhausted : Nat := 8

/-- `codes.Aborted`. -/
def codeAborted : Nat := 10

/-- `codes.Internal`. -/
def codeInternal : Nat := 13

/-- `codes.Unavailable`. -/
def codeUnavailable : Nat := 14

/-- A non-nil Go error as seen by the interceptors.  `isStatus` is the
`ok` flag of `status.FromError`; for a non-status error that function
yields code `Unknown`. -/
structure GoError where
  isStatus : Bool
  code : Nat
  msg : String
deriving DecidableEq, Repr

/-- `status.FromError(err); st.Code()`: the status code of an error,
`Unknown` when the error carries no gRPC status. -/
def stCode (e : GoError) : Nat :=
  if e.isStatus then e.code else codeUnknown

/-- The error built by `status.Error(codes.Unavailable, "circuit breaker is open")`. -/
def breakerOpenError : GoError :=
  ⟨true, codeUnavailable, "circuit breaker is open"⟩

/-! ## Circuit breaker (`src/unnamed/part_001`) -/

/-- `CircuitBreakerState`: Closed = 0, Open = 1, HalfOpen = 2. -/
inductive CBState where
  | Closed
  | Open
  | HalfOpen
deriving DecidableEq, Repr

/-- `CircuitBreakerConfig`. -/
structure CircuitBreakerConfig where
  FailureThreshold : Int
  SuccessThreshold : Int
  Timeout : Nat
  RetryableCodes : List Nat
deriving DecidableEq, Repr

/-- `DefaultCircuitBreakerConfig()` (timeout 30 s, in nanoseconds). -/
def DefaultCircuitBreakerConfig : CircuitBreakerConfig :=
  { FailureThreshold := 5
    SuccessThreshold := 2
    Timeout := 30 * 1000000000
    RetryableCodes := [codeUnavailable, codeDeadlineExceeded, codeResourceExhausted] }

/-- The mutable state of a `CircuitBreaker` (the mutex is dropped: calls
are modelled one at a time). -/
structure CircuitBreaker where
  state : CBState
  failures : Int
  successes : Int
  lastFailure : Nat
  config : CircuitBreakerConfig
deriving DecidableEq, Repr

/-- `NewCircuitBreaker(cfg)` with a non-nil config: zero counters, zero
`lastFailure` (Go's zero `time.Time`), state Closed. -/
def NewCircuitBreaker (cfg : CircuitBreakerConfig) : CircuitBreaker :=
  { state := .Closed, failures := 0, successes := 0, lastFailure := 0, config := cfg }

/-- Result of one `CircuitBreaker.Call`: whether the downstream invoker
was actually invoked, the error returned to the caller (`none` =
success), and the breaker state afterwards. -/
structure CBCallResult where
  invoked : Bool
  result : Option GoError
  cb : CircuitBreaker
deriving DecidableEq, Repr

/-- `CircuitBreaker.Call` at instant `now`, where `invokerResult` is what
`invoker(ctx, method, req, reply, cc, opts...)` would return (`none` =
nil error).  Mirrors `src/unnamed/part_001` lines 76-142:
reject while Open before the timeout; Open→HalfOpen (successes reset)
when the timeout elapsed; after invoking, count a qualifying failure
(HalfOpen→Open resets failures, Closed→Open at the threshold), or on
success reset failures and count HalfOpen successes up to the
success threshold. -/
def CircuitBreaker.Call (cb : CircuitBreaker) (now : Nat)
    (invokerResult : Option GoError) : CBCallResult :=
  if cb.state = .Open ∧ now - cb.lastFailure < cb.config.Timeout then
    { invoked := false, result := some breakerOpenError, cb := cb }
  else
    let cb1 : CircuitBreaker :=
      if cb.state = .Open then { cb with state := .HalfOpen, successes := 0 } else cb
    match invokerResult with
    | some e =>
        let retryable := cb1.config.RetryableCodes.contains (stCode e)
        let cb2 : CircuitBreaker :=
          if retryable then
            let cbf : CircuitBreaker := { cb1 with failures := cb1.failures + 1, lastFailure := now }
            if cbf.state = .HalfOpen then
              { cbf with state := .Open, failures := 0 }
            else if cbf.failures ≥ cbf.config.FailureThreshold then
              { cbf with state := .Open }
            else cbf
          else cb1
        { invoked := true, result := some e, cb := cb2 }
    | none =>
        let cb2 : CircuitBreaker := { cb1 with failures := 0 }
        let cb3 : CircuitBreaker :=
          if cb2.state = .HalfOpen then
            let cbs : CircuitBreaker := { cb2 with successes := cb2.successes + 1 }
            if cbs.successes ≥ cbs.config.SuccessThreshold then
              { cbs with state := .Closed }
            else cbs
          else cb2
        { invoked := true, result := none, cb := cb3 }

/-- The error built by the interceptor when the reply pointer is nil. -/
def nilReplyError : GoError :=
  ⟨true, codeInternal, "grpc reply is nil (circuit breaker interceptor bug)"⟩

/-- The per-call body of `CircuitBreakerInterceptor`
(`src/unnamed/part_001` lines 172-188): run the breaker call, then if
the call returned no error but the reply is nil, return a synthetic
Internal-code status error; otherwise return the breaker call's error.
`replyIsNil` models `reply == nil`. -/
def CircuitBreakerInterceptor (cb : CircuitBreaker) (now : Nat)
    (invokerResult : Option GoError) (replyIsNil : Bool) : CBCallResult :=
  let r := cb.Call now invokerResult
  if r.result = none ∧ replyIsNil then
    { r with result := some nilReplyError }
  else r

/-! ## Retry interceptor (`src/unnamed/part_003`) -/

/-- `RetryConfig`.  Backoff durations are `Nat` (nanoseconds);
`applyMultiplier` abstracts the float computation
`time.Duration(float64(backoff) * cfg.BackoffMultiplier)`. -/
structure RetryConfig where
  MaxAttempts : Nat
  InitialBackoff : Nat
  MaxBackoff : Nat
  applyMultiplier : Nat → Nat
  RetryableCodes : List Nat

/-- The value an exhausted or canceled retry loop hands back. -/
inductive RetryOutcome where
  | ok
  | err (e : GoError)
  | canceled
deriving DecidableEq, Repr

/-- One iteration onward of the retry loop of `RetryInterceptor`
(`src/unnamed/part_003` lines 47-105).  `invoker k` is the result of the
k-th invocation (1-indexed, `none` = success); `ctxDone k` models
whether the caller's context fires during the backoff sleep that
follows attempt k.  `fuel` counts the loop iterations left
(`MaxAttempts - attempt + 1`); when it runs out the loop exits and
`lastErr` is returned.  The result pairs the number of invocations
performed with the outcome. -/
def retryLoop (cfg : RetryConfig) (invoker : Nat → Option GoError)
    (ctxDone : Nat → Bool) :
    Nat → Nat → Nat → Option GoError → Nat × RetryOutcome
  | 0, attempt, _, lastErr =>
      (attempt - 1, match lastErr with | none => .ok | some e => .err e)
  | fuel + 1, attempt, backoff, _ =>
      match invoker attempt with
      | none => (attempt, .ok)
      | some e =>
          if !e.isStatus then (attempt, .err e)
          else
            let retryable := cfg.RetryableCodes.contains (stCode e)
            if !retryable ∨ attempt ≥ cfg.MaxAttempts then (attempt, .err e)
            else if ctxDone attempt then (attempt, .canceled)
            else
              let b := cfg.applyMultiplier backoff
              let b := if b > cfg.MaxBackoff then cfg.MaxBackoff else b
              retryLoop cfg invoker ctxDone fuel (attempt + 1) b (some e)

/-- The per-call body of `RetryInterceptor` with a non-nil config:
run the loop from attempt 1 with the initial backoff and a nil
`lastErr`. -/
def RetryInterceptor (cfg : RetryConfig) (invoker : Nat → Option GoError)
    (ctxDone : Nat → Bool) : Nat × RetryOutcome :=
  retryLoop cfg invoker ctxDone cfg.MaxAttempts 1 cfg.InitialBackoff none

/-! ## Connection manager (`src/internal/manager`) -/

/-- `connectivity.State` of a gRPC client connection. -/
inductive ConnState where
  | Idle
  | Connecting
  | Ready
  | TransientFailure
  | Shutdown
deriving DecidableEq, Repr

/-- `connectivity.State.String()`. -/
def ConnState.str : ConnState → String
  | .Idle => "IDLE"
  | .Connecting => "CONNECTING"
  | .Ready => "READY"
  | .TransientFailure => "TRANSIENT_FAILURE"
  | .Shutdown => "SHUTDOWN"

/-- A `*grpc.ClientConn` handle: an identity (to talk about "the
identical handle"), its current connectivity state (`GetState()`), and
what its `Close()` would return (`none` = nil error). -/
structure Conn where
  id : Nat
  state : ConnState
  closeResult : Option GoError
deriving DecidableEq, Repr

/-- `Config` (`src/internal/manager/manager.go`).  Durations and the
message size are Go `int`/`int64` values, modelled as `Int`; the opaque
`TransportCredentials` pointer is modelled by its nil-ness. -/
structure Config where
  MaxMsgSize : Int
  KeepAliveTime : Int
  KeepAliveTimeout : Int
  KeepAlivePermitWithoutStream : Bool
  MaxReconnectDelay : Int
  MinConnectTimeout : Int
  EnableLogging : Bool
  EnableMetrics : Bool
  EnableRetry : Bool
  EnableCircuitBreaker : Bool
  hasTransportCredentials : Bool
deriving DecidableEq, Repr

/-- `Config.Validate`: first failing check wins, `none` = valid. -/
def Config.Validate (c : Config) : Option String :=
  if c.MaxMsgSize ≤ 0 then some "MaxMsgSize must be greater than 0"
  else if c.KeepAliveTime ≤ 0 then some "KeepAliveTime must be greater than 0"
  else if c.KeepAliveTimeout ≤ 0 then some "KeepAliveTimeout must be greater than 0"
  else if c.MaxReconnectDelay ≤ 0 then some "MaxReconnectDelay must be greater than 0"
  else if c.MinConnectTimeout ≤ 0 then some "MinConnectTimeout must be greater than 0"
  else none

/-- `DefaultConfig()`. -/
def DefaultConfig : Config :=
  { MaxMsgSize := 1024 * 1024 * 1024
    KeepAliveTime := 30 * 1000000000
    KeepAliveTimeout := 5 * 1000000000
    KeepAlivePermitWithoutStream := true
    MaxReconnectDelay := 3 * 1000000000
    MinConnectTimeout := 10 * 1000000000
    EnableLogging := true
    EnableMetrics := false
    EnableRetry := true
    EnableCircuitBreaker := true
    hasTransportCredentials := false }

/-- Store under a key in an association list modelling a Go map:
overwrite the existing entry or append a new one. -/
def assocPut {α : Type} (l : List (String × α)) (k : String) (v : α) :
    List (String × α) :=
  match l with
  | [] => [(k, v)]
  | (k', v') :: t => if k' = k then (k, v) :: t else (k', v') :: assocPut t k v

/-- Delete a key from an association list modelling a Go map. -/
def assocDel {α : Type} (l : List (String × α)) (k : String) :
    List (String × α) :=
  match l with
  | [] => []
  | (k', v') :: t => if k' = k then t else (k', v') :: assocDel t k

/-- The state of a `ConnectionManager`: the `connections` and
`addresses` maps (association lists, iteration order fixed by the
list) and the validated config. -/
structure ConnectionManager where
  connections : List (String × Conn)
  addresses : List (String × String)
  config : Config
deriving DecidableEq, Repr

/-- Outcome of `GetConnection`: a handle together with whether a fresh
dial produced it, or one of the two error cases. -/
inductive GetConnOutcome where
  | ok (conn : Conn) (dialed : Bool)
  | addrNotFound (serviceName : String)
  | dialFailed (e : GoError)
deriving DecidableEq, Repr

/-- The tail of `GetConnection` under the exclusive lock, after the
stale-handle re-check (`manager.go` lines 93-105): dial via
`createConnection` (abstracted as the `dial` function, since
`grpc.DialContext` is the external transport), and on success install
the new handle into the map. -/
def dialAndInstall (cm : ConnectionManager) (serviceName address : String)
    (dial : String → Except GoError Conn) : GetConnOutcome × ConnectionManager :=
  match dial address with
  | .error e => (.dialFailed e, cm)
  | .ok newConn =>
      (.ok newConn true,
       { cm with connections := assocPut cm.connections serviceName newConn })

/-- The slow path of `GetConnection` under the exclusive lock
(`manager.go` lines 78-105): re-check the handle after acquiring the
lock, return it if usable, otherwise close and delete it (the `Close`
error is discarded) and dial fresh. -/
def getConnectionSlow (cm : ConnectionManager) (serviceName address : String)
    (dial : String → Except GoError Conn) : GetConnOutcome × ConnectionManager :=
  match cm.connections.lookup serviceName with
  | some conn =>
      if conn.state = .Ready ∨ conn.state = .Idle then (.ok conn false, cm)
      else
        dialAndInstall
          { cm with connections := assocDel cm.connections serviceName }
          serviceName address dial
  | none => dialAndInstall cm serviceName address dial

/-- `ConnectionManager.GetConnection` (`manager.go` lines 54-105):
store a non-empty supplied address (or load the stored one), fail with
the service-not-registered error when no address is known, take the
shared-lock fast path when the cached handle is Ready or Idle, and
otherwise escalate to the slow path.  Single-threaded embedding: the
shared-lock read and the exclusive re-check see the same map. -/
def ConnectionManager.GetConnection (cm : ConnectionManager)
    (serviceName address : String) (dial : String → Except GoError Conn) :
    GetConnOutcome × ConnectionManager :=
  let step : String × ConnectionManager :=
    if address ≠ "" then
      (address, { cm with addresses := assocPut cm.addresses serviceName address })
    else ((cm.addresses.lookup serviceName).getD "", cm)
  let addr := step.1
  let cm1 := step.2
  if addr = "" then (.addrNotFound serviceName, cm1)
  else
    match cm1.connections.lookup serviceName with
    | some conn =>
        if conn.state = .Ready ∨ conn.state = .Idle then (.ok conn false, cm1)
        else getConnectionSlow cm1 serviceName addr dial
    | none => getConnectionSlow cm1 serviceName addr dial

/-- The `for name, conn := range cm.connections` loop of
`ConnectionManager.Close` (`manager.go` lines 200-224): every handle's
`Close()` is attempted (`closedIds` records them in order) and each
error overwrites `lastErr`. -/
def closeAllConns : List (String × Conn) → List Nat × Option GoError →
    List Nat × Option GoError
  | [], acc => acc
  | (_, conn) :: rest, (closed, lastErr) =>
      let lastErr' := match conn.closeResult with
        | some e => some e
        | none => lastErr
      closeAllConns rest (closed ++ [conn.id], lastErr')

/-- Result of `ConnectionManager.Close`: the handles whose `Close()` was
invoked, the returned error, and the manager afterwards. -/
structure CloseAllResult where
  closedIds : List Nat
  err : Option GoError
  cm : ConnectionManager
deriving DecidableEq, Repr

/-- `ConnectionManager.Close`: close every tracked handle, keep the
last error, then replace both maps with fresh empty ones. -/
def ConnectionManager.Close (cm : ConnectionManager) : CloseAllResult :=
  let r := closeAllConns cm.connections ([], none)
  ⟨r.1, r.2, { cm with connections := [], addresses := [] }⟩

/-- `ConnectionManager.GetConnectionsCount` (`manager.go` lines 227-231). -/
def ConnectionManager.GetConnectionsCount (cm : ConnectionManager) : Nat :=
  cm.connections.length

/-! ## Health reporting (`src/internal/manager/health.go`) -/

/-- `ConnectionHealth`. -/
structure ConnectionHealth where
  state : String
  healthy : Bool
  error : String
deriving DecidableEq, Repr

/-- The entry reported for a registered service with no handle yet. -/
def notConnectedHealth : ConnectionHealth :=
  ⟨"NotConnected", false, "connection not established yet"⟩

/-- The entry reported for a live handle in state `s`. -/
def connHealth (s : ConnState) : ConnectionHealth :=
  ⟨s.str, s = ConnState.Ready, ""⟩

/-- `ConnectionManager.HealthCheck` (`health.go` lines 17-56): one entry
per registered address (`NotConnected` when no handle exists, the
handle's state name with `healthy = (state == Ready)` otherwise),
followed by entries for orphaned handles that have no registered
address, under the same scheme.  The result map is modelled as an
association list whose key order follows the two loops. -/
def ConnectionManager.HealthCheck (cm : ConnectionManager) :
    List (String × ConnectionHealth) :=
  let fromAddresses := cm.addresses.map (fun p =>
    (p.1,
     match cm.connections.lookup p.1 with
     | none => notConnectedHealth
     | some conn => connHealth conn.state))
  let orphans :=
    (cm.connections.filter (fun p => (cm.addresses.lookup p.1).isNone)).map
      (fun p => (p.1, connHealth p.2.state))
  fromAddresses ++ orphans

/-! ## Lock discipline of `GetConnection` (`manager.go` lines 54-179)

For the concurrency claim the relevant object is the sequence of lock
and I/O events a single `GetConnection` call performs on its slow
path, read off the source line by line. -/

/-- Events of one `GetConnection` call followed by one call invocation
through the returned handle. -/
inductive MgrEvent where
  | lockExclusive
  | unlockExclusive
  | lockShared
  | unlockShared
  | dial
  | installHandle
  | invokeCall
deriving DecidableEq, Repr

/-- The event trace of a `GetConnection` call that reaches the dial
(slow path, fast path missed), followed by the caller invoking a call
on the returned handle.  Read off `manager.go`:
lines 60-65 (`mu.Lock` … `mu.Unlock` around the address store),
lines 72-74 (`mu.RLock` … `mu.RUnlock` around the fast-path read),
line 83 (`mu.Lock`, released by the deferred `mu.Unlock` at return),
line 96 (`createConnection` → `grpc.DialContext`),
line 101 (`cm.connections[serviceName] = newConn`);
the invocation itself happens after `GetConnection` returned. -/
def getConnectionDialTrace : List MgrEvent :=
  [.lockExclusive, .unlockExclusive,
   .lockShared, .unlockShared,
   .lockExclusive, .dial, .installHandle, .unlockExclusive,
   .invokeCall]

/-- Nesting depth of the exclusive registry lock right before each
event, scanning the trace left to right. -/
def exclusiveDepths (tr : List MgrEvent) (depth : Nat) : List (MgrEvent × Nat) :=
  match tr with
  | [] => []
  | e :: rest =>
      let depth' := match e with
        | .lockExclusive => depth + 1
        | .unlockExclusive => depth - 1
        | _ => depth
      (e, depth) :: exclusiveDepths rest depth'

/-- Whether an event of the trace happens while the exclusive registry
lock is held. -/
def eventUnderExclusiveLock (tr : List MgrEvent) (e : MgrEvent) : Bool :=
  (exclusiveDepths tr 0).any (fun p => p.1 = e ∧ p.2 > 0)

/-! ## Theorems -/

/-- The qualifying failure used in the breaker scenarios. -/
def unavailableFailure : GoError := ⟨true, codeUnavailable, "service unavailable"⟩

/-- A breaker config with failure threshold 2, success threshold 2,
timeout 10 time units, qualifying code Unavailable. -/
def cbScenarioConfig : CircuitBreakerConfig :=
  ⟨2, 2, 10, [codeUnavailable]⟩

/-- The breaker of `cbScenarioConfig` after one qualifying failure:
still Closed, one consecutive failure recorded. -/
def cbAfterOneFailure : CircuitBreaker :=
  ((NewCircuitBreaker cbScenarioConfig).Call 1 (some unavailableFailure)).cb

/-- Scenario step 1: a fresh breaker takes a qualifying failure at t=1. -/
def cbS1 : CBCallResult :=
  (NewCircuitBreaker cbScenarioConfig).Call 1 (some unavailableFailure)

/-- Scenario step 2: a second qualifying failure at t=2. -/
def cbS2 : CBCallResult := cbS1.cb.Call 2 (some unavailableFailure)

/-- Scenario step 3: a call at t=5, before the timeout elapsed. -/
def cbS3 : CBCallResult := cbS2.cb.Call 5 (some unavailableFailure)

/-- Scenario step 4: a call at t=12, after the timeout elapsed, whose
invocation fails with a non-qualifying code. -/
def cbS4 : CBCallResult := cbS2.cb.Call 12 (some ⟨true, codeInternal, "non-qualifying"⟩)

/-- Scenario step 5: a successful call at t=13 while HalfOpen. -/
def cbS5 : CBCallResult := cbS4.cb.Call 13 none

/-- Scenario step 6: a second successful call at t=14 while HalfOpen. -/
def cbS6 : CBCallResult := cbS5.cb.Call 14 none

/-- Scenario branch of step 5: a qualifying failure at t=13 while
HalfOpen. -/
def cbS7 : CBCallResult := cbS4.cb.Call 13 (some unavailableFailure)

/-- A retry config with MaxAttempts = 3 and the default retryable
codes; the multiplier doubles the backoff as `BackoffMultiplier = 2.0`
does on these values. -/
def retryScenarioConfig : RetryConfig :=
  { MaxAttempts := 3
    InitialBackoff := 100
    MaxBackoff := 3000
    applyMultiplier := fun b => 2 * b
    RetryableCodes := [codeUnavailable, codeDeadlineExceeded, codeResourceExhausted, codeAborted] }

/-- A context that never fires during the backoff sleeps. -/
def ctxNeverDone : Nat → Bool := fun _ => false

/-- An invoker failing with a retryable code on the first two
invocations and succeeding on the third. -/
def invokerFailsTwiceThenOk : Nat → Option GoError := fun k =>
  if k ≤ 2 then some ⟨true, codeUnavailable, "transient"⟩ else none

/-- An invoker failing with a non-retryable code on every invocation. -/
def invokerNonRetryable : Nat → Option GoError := fun _ =>
  some ⟨true, codeInternal, "permanent"⟩

/-- An invoker failing with a retryable code on every invocation, with
a distinct message per attempt so the returned error is identifiable. -/
def invokerAlwaysRetryable : Nat → Option GoError := fun k =>
  some ⟨true, codeUnavailable, if k = 1 then "e1" else if k = 2 then "e2" else "e3"⟩

/-- The first close error in map-iteration order (what the spec says
`Close` reports). -/
def firstCloseError : List (String × Conn) → Option GoError
  | [] => none
  | (_, c) :: t =>
      match c.closeResult with
      | some e => some e
      | none => firstCloseError t

/-- The last close error in map-iteration order (what `Close` reports). -/
def lastCloseError : List (String × Conn) → Option GoError
  | [] => none
  | (_, c) :: t =>
      match lastCloseError t with
      | some e => some e
      | none => c.closeResult

/-- A close error of the first tracked handle. -/
def closeErrA : GoError := ⟨false, 0, "close failure A"⟩

/-- A close error of the second tracked handle. -/
def closeErrB : GoError := ⟨false, 0, "close failure B"⟩

/-- A manager tracking two handles whose `Close()` both fail, with
distinct errors. -/
def cmTwoFailingCloses : ConnectionManager :=
  { connections := [("svcA", ⟨1, .Ready, some closeErrA⟩), ("svcB", ⟨2, .Ready, some closeErrB⟩)]
    addresses := [("svcA", "a:1"), ("svcB", "b:1")]
    config := DefaultConfig }

/-- A manager with one registered service holding a Ready handle. -/
def cmWithReadyConn : ConnectionManager :=
  { connections := [("svc", ⟨7, .Ready, none⟩)]
    addresses := [("svc", "addr:1")]
    config := DefaultConfig }

/-- A dial function that always fails; used where no dial must happen. -/
def dialNever : String → Except GoError Conn := fun _ =>
  .error ⟨false, 0, "unexpected dial"⟩

/-- A manager with a registered-but-never-dialed service (`svcA`), a
registered service with a Ready handle (`svcB`), and an orphaned handle
without a registered address (`svcC`). -/
def cmHealthFixture : ConnectionManager :=
  { connections := [("svcB", ⟨1, .Ready, none⟩), ("svcC", ⟨2, .TransientFailure, none⟩)]
    addresses := [("svcA", "a:1"), ("svcB", "b:1")]
    config := DefaultConfig }

/-- Claim C1: with FailureThreshold = 2, two consecutive qualifying
failures move the breaker Closed→Open; a call before the timeout is
rejected with the unavailable-code breaker error without invoking the
downstream function and leaves the breaker unchanged; the first call
after the timeout is allowed through and the breaker becomes HalfOpen
with its success count reset to 0; SuccessThreshold (= 2) consecutive
successes while HalfOpen move it to Closed; a single qualifying
failure while HalfOpen moves it back to Open. -/
theorem circuit_breaker_threshold_two_scenario :
    (cbS1.cb.state = .Closed ∧ cbS1.invoked = true)
    ∧ cbS2.cb.state = .Open
    ∧ (cbS3.invoked = false ∧ cbS3.result = some breakerOpenError
        ∧ stCode breakerOpenError = codeUnavailable ∧ cbS3.cb = cbS2.cb)
    ∧ (cbS4.invoked = true ∧ cbS4.cb.state = .HalfOpen ∧ cbS4.cb.successes = 0)
    ∧ (cbS5.invoked = true ∧ cbS5.cb.state = .HalfOpen ∧ cbS6.cb.state = .Closed)
    ∧ cbS7.cb.state = .Open := by
  decide

/-- Claim C10: the circuit-breaker interceptor returns the breaker
call's outcome unchanged, except that a nil error paired with a nil
reply is replaced by the synthetic Internal-code status error. -/
theorem circuit_breaker_interceptor_nil_reply (cb : CircuitBreaker) (now : Nat)
    (inv : Option GoError) (b : Bool) :
    (CircuitBreakerInterceptor cb now inv b).cb = (cb.Call now inv).cb
    ∧ (CircuitBreakerInterceptor cb now inv b).invoked = (cb.Call now inv).invoked
    ∧ ((cb.Call now inv).result = none ∧ b = true →
        (CircuitBreakerInterceptor cb now inv b).result = some nilReplyError
          ∧ nilReplyError.isStatus = true ∧ nilReplyError.code = codeInternal)
    ∧ (¬ ((cb.Call now inv).result = none ∧ b = true) →
        (CircuitBreakerInterceptor cb now inv b).result = (cb.Call now inv).result) := by
  simp only [CircuitBreakerInterceptor]
  split
  · rename_i h
    exact ⟨rfl, rfl, fun _ => ⟨rfl, rfl, rfl⟩, fun hn => absurd h hn⟩
  · rename_i h
    exact ⟨rfl, rfl, fun hc => absurd hc h, fun _ => rfl⟩

/-- Witness for claim C10: a fresh default breaker, successful
invocation, nil reply — the interceptor returns the Internal error. -/
theorem circuit_breaker_interceptor_nil_reply_witness :
    (((NewCircuitBreaker DefaultCircuitBreakerConfig).Call 0 none).result = none
        ∧ true = true)
    ∧ (CircuitBreakerInterceptor (NewCircuitBreaker DefaultCircuitBreakerConfig)
          0 none true).result = some nilReplyError :=
  ⟨by decide,
   ((circuit_breaker_interceptor_nil_reply
      (NewCircuitBreaker DefaultCircuitBreakerConfig) 0 none true).2.2.1
      (by decide)).1⟩

/-- Counterexample to claim C3: with FailureThreshold = 2, the second
consecutive qualifying failure moves the breaker Closed→Open, but the
failure count afterwards is 2, not 0 — the count is not reset on the
Closed→Open transition. -/
theorem closed_to_open_does_not_reset_failures :
    let fail := some unavailableFailure
    let s1 := (NewCircuitBreaker cbScenarioConfig).Call 1 fail
    let s2 := s1.cb.Call 2 fail
    s1.cb.state = .Closed ∧ s2.cb.state = .Open
      ∧ s2.cb.failures = 2 ∧ ¬ s2.cb.failures = 0 := by
  decide

/-- Claim C3 (amended): from Closed, one call moves the breaker to Open
exactly when the call is a qualifying failure and the incremented
consecutive-failure count reaches the failure threshold (never below
it); upon this Closed→Open transition the failure count is not reset —
it holds the incremented value. -/
theorem closed_to_open_exactly_at_threshold (cb : CircuitBreaker) (now : Nat)
    (res : Option GoError) (hclosed : cb.state = .Closed) :
    ((cb.Call now res).cb.state = .Open ↔
      ∃ e, res = some e ∧ stCode e ∈ cb.config.RetryableCodes
        ∧ cb.failures + 1 ≥ cb.config.FailureThreshold)
    ∧ ((cb.Call now res).cb.state = .Open →
        (cb.Call now res).cb.failures = cb.failures + 1) := by
  obtain ⟨st, f, sc, lf, cfg⟩ := cb
  change st = CBState.Closed at hclosed
  subst hclosed
  cases res with
  | none => simp [CircuitBreaker.Call]
  | some e =>
      by_cases hr : stCode e ∈ cfg.RetryableCodes
      · by_cases ht : cfg.FailureThreshold ≤ f + 1
        · simp [CircuitBreaker.Call, hr, ht]
        · simp [CircuitBreaker.Call, hr, ht]
      · simp [CircuitBreaker.Call, hr]

/-- Witness for the amended claim C3: a Closed breaker with one prior
qualifying failure and threshold 2 moves to Open on the next
qualifying failure, keeping failure count 1 + 1 = 2. -/
theorem closed_to_open_exactly_at_threshold_witness :
    cbAfterOneFailure.state = CBState.Closed
    ∧ (((cbAfterOneFailure.Call 2 (some unavailableFailure)).cb.state = CBState.Open ↔
          ∃ e, some unavailableFailure = some e
            ∧ stCode e ∈ cbAfterOneFailure.config.RetryableCodes
            ∧ cbAfterOneFailure.failures + 1 ≥ cbAfterOneFailure.config.FailureThreshold)
        ∧ ((cbAfterOneFailure.Call 2 (some unavailableFailure)).cb.state = CBState.Open →
            (cbAfterOneFailure.Call 2 (some unavailableFailure)).cb.failures
              = cbAfterOneFailure.failures + 1)) :=
  ⟨by decide,
   closed_to_open_exactly_at_threshold cbAfterOneFailure 2 (some unavailableFailure)
     (by decide)⟩

/-- Claim C2: with MaxAttempts = 3, an invoker failing retryably twice
then succeeding is invoked exactly 3 times and the call succeeds; an
invoker failing non-retryably is invoked exactly once and its error is
returned unchanged; when all 3 attempts fail retryably, the third
attempt's error is returned unmodified, its code and message intact. -/
theorem retry_interceptor_attempt_counts :
    RetryInterceptor retryScenarioConfig invokerFailsTwiceThenOk ctxNeverDone
      = (3, .ok)
    ∧ RetryInterceptor retryScenarioConfig invokerNonRetryable ctxNeverDone
      = (1, .err ⟨true, codeInternal, "permanent"⟩)
    ∧ RetryInterceptor retryScenarioConfig invokerAlwaysRetryable ctxNeverDone
      = (3, .err ⟨true, codeUnavailable, "e3"⟩)
    ∧ invokerAlwaysRetryable 3 = some ⟨true, codeUnavailable, "e3"⟩ := by
  refine ⟨rfl, rfl, rfl, rfl⟩

/-- Counterexample to claim C4: on a manager with two failing closes,
`Close` returns the second (last) close error, not the first one, even
though both handles' closes were attempted. -/
theorem close_all_returns_last_error_not_first :
    cmTwoFailingCloses.Close.err = some closeErrB
    ∧ firstCloseError cmTwoFailingCloses.connections = some closeErrA
    ∧ ¬ cmTwoFailingCloses.Close.err
        = firstCloseError cmTwoFailingCloses.connections
    ∧ cmTwoFailingCloses.Close.closedIds = [1, 2] := by
  refine ⟨rfl, rfl, by decide, rfl⟩

/-- The close loop closes every handle in order and ends with the last
close error (or the accumulator when none fails). -/
theorem closeAllConns_spec (l : List (String × Conn)) (closed : List Nat)
    (acc : Option GoError) :
    closeAllConns l (closed, acc) =
      (closed ++ l.map (fun p => p.2.id),
       match lastCloseError l with
       | some e => some e
       | none => acc) := by
  induction l generalizing closed acc with
  | nil => simp [closeAllConns, lastCloseError]
  | cons hd t ih =>
      obtain ⟨n, c⟩ := hd
      simp only [closeAllConns, lastCloseError, ih, List.map_cons]
      cases hc : c.closeResult <;> cases hl : lastCloseError t <;> simp [hc, hl]

/-- Claim C4 (amended): closing all connections attempts every tracked
handle's close in iteration order (no early abort), and the returned
error is the last close error encountered, not the first. -/
theorem close_all_attempts_every_handle (cm : ConnectionManager) :
    cm.Close.closedIds = cm.connections.map (fun p => p.2.id)
    ∧ cm.Close.err = lastCloseError cm.connections := by
  unfold ConnectionManager.Close
  rw [closeAllConns_spec]
  refine ⟨rfl, ?_⟩
  cases lastCloseError cm.connections <;> rfl

/-- Claim C7: after `Close`, the tracked-connection count is 0 whatever
the individual close results were. -/
theorem close_all_resets_connection_count (cm : ConnectionManager) :
    cm.Close.cm.GetConnectionsCount = 0 := rfl

/-- Claim C6: configuration validation succeeds exactly when the four
duration fields and the max-message-size field are all strictly
positive; equivalently it fails exactly when at least one of them is
≤ 0, regardless of every other field. -/
theorem config_validate_iff_positive (c : Config) :
    (c.Validate = none ↔
      (0 < c.MaxMsgSize ∧ 0 < c.KeepAliveTime ∧ 0 < c.KeepAliveTimeout
        ∧ 0 < c.MaxReconnectDelay ∧ 0 < c.MinConnectTimeout))
    ∧ ((c.Validate).isSome = true ↔
      (c.MaxMsgSize ≤ 0 ∨ c.KeepAliveTime ≤ 0 ∨ c.KeepAliveTimeout ≤ 0
        ∨ c.MaxReconnectDelay ≤ 0 ∨ c.MinConnectTimeout ≤ 0)) := by
  unfold Config.Validate
  split_ifs with h1 h2 h3 h4 h5 <;> simp <;> omega

/-- Counterexample to claim C9: on the slow path of `GetConnection`
the dial is performed while the registry's exclusive lock is held — it
does not occur outside the lock. -/
theorem dial_occurs_under_exclusive_lock :
    eventUnderExclusiveLock getConnectionDialTrace MgrEvent.dial = true := by
  decide

/-- Claim C9 (amended): on the slow path of `GetConnection` the
registry's exclusive lock is held across both the dial and the
handle-install step (the dial is a non-blocking connection initiation);
invoking calls through the returned handle occurs outside the lock. -/
theorem lock_discipline_of_get_connection :
    eventUnderExclusiveLock getConnectionDialTrace MgrEvent.dial = true
    ∧ eventUnderExclusiveLock getConnectionDialTrace MgrEvent.installHandle = true
    ∧ eventUnderExclusiveLock getConnectionDialTrace MgrEvent.invokeCall = false := by
  decide

/-- The fast path of `GetConnection`: with a usable cached handle and a
known address, the cached handle is returned, no dial happens, the
connections map is untouched, and with an empty supplied address the
addresses map is untouched as well. -/
theorem getConn_fast (cm : ConnectionManager) (s a : String)
    (dial : String → Except GoError Conn) (conn : Conn)
    (hconn : cm.connections.lookup s = some conn)
    (husable : conn.state = .Ready ∨ conn.state = .Idle)
    (haddr : a ≠ "" ∨ (cm.addresses.lookup s).getD "" ≠ "") :
    (cm.GetConnection s a dial).1 = .ok conn false
    ∧ (cm.GetConnection s a dial).2.connections = cm.connections
    ∧ (a = "" → (cm.GetConnection s a dial).2.addresses = cm.addresses) := by
  by_cases ha : a = ""
  · have hstored : (cm.addresses.lookup s).getD "" ≠ "" := by
      rcases haddr with h | h
      · exact absurd ha h
      · exact h
    simp only [ConnectionManager.GetConnection, ha, ne_eq, not_true_eq_false,
      if_false, ite_false]
    simp only [if_neg hstored, hconn, if_pos husable]
    simp
  · simp only [ConnectionManager.GetConnection, if_pos ha, ne_eq, ha,
      not_false_eq_true, ite_true]
    simp only [if_neg ha, hconn, if_pos husable]
    simp [ha]

/-- Claim C5: while a service's tracked handle is Ready or Idle and an
address is known, `GetConnection` returns that very handle with no new
dial and leaves the connections map unchanged, and a repeated call
returns the identical handle again — acquisition is idempotent. -/
theorem get_connection_idempotent_while_usable (cm : ConnectionManager)
    (s a : String) (dial : String → Except GoError Conn) (conn : Conn)
    (hconn : cm.connections.lookup s = some conn)
    (husable : conn.state = .Ready ∨ conn.state = .Idle)
    (haddr : a ≠ "" ∨ (cm.addresses.lookup s).getD "" ≠ "") :
    (cm.GetConnection s a dial).1 = .ok conn false
    ∧ (cm.GetConnection s a dial).2.connections = cm.connections
    ∧ ((cm.GetConnection s a dial).2.GetConnection s a dial).1 = .ok conn false
    ∧ ((cm.GetConnection s a dial).2.GetConnection s a dial).2.connections
        = cm.connections := by
  obtain ⟨h1, h2, h3⟩ := getConn_fast cm s a dial conn hconn husable haddr
  have hconn' : (cm.GetConnection s a dial).2.connections.lookup s = some conn := by
    rw [h2]; exact hconn
  have haddr' : a ≠ ""
      ∨ (((cm.GetConnection s a dial).2.addresses.lookup s).getD "" ≠ "") := by
    by_cases ha : a = ""
    · right
      rw [h3 ha]
      rcases haddr with h | h
      · exact absurd ha h
      · exact h
    · left; exact ha
  obtain ⟨h1', h2', -⟩ :=
    getConn_fast (cm.GetConnection s a dial).2 s a dial conn hconn' husable haddr'
  exact ⟨h1, h2, h1', by rw [h2', h2]⟩

/-- Witness for claim C5: a manager with one Ready handle, looked up
twice with an empty address — both lookups return the identical handle
with no dial, and the connections map never changes. -/
theorem get_connection_idempotent_while_usable_witness :
    (cmWithReadyConn.GetConnection "svc" "" dialNever).1
        = GetConnOutcome.ok ⟨7, ConnState.Ready, none⟩ false
    ∧ (cmWithReadyConn.GetConnection "svc" "" dialNever).2.connections
        = cmWithReadyConn.connections
    ∧ ((cmWithReadyConn.GetConnection "svc" "" dialNever).2.GetConnection
          "svc" "" dialNever).1 = GetConnOutcome.ok ⟨7, ConnState.Ready, none⟩ false
    ∧ ((cmWithReadyConn.GetConnection "svc" "" dialNever).2.GetConnection
          "svc" "" dialNever).2.connections = cmWithReadyConn.connections :=
  get_connection_idempotent_while_usable cmWithReadyConn "svc" "" dialNever
    ⟨7, ConnState.Ready, none⟩ (by decide) (by decide) (by decide)

/-- Looking a key up in an association list whose values were computed
from the keys alone. -/
theorem lookup_map_keys {β : Type} (l : List (String × String)) (f : String → β)
    (k : String) :
    (l.map (fun p => (p.1, f p.1))).lookup k = (l.lookup k).map (fun _ => f k) := by
  induction l with
  | nil => rfl
  | cons hd t ih =>
      obtain ⟨a, b⟩ := hd
      by_cases h : k = a
      · subst h; simp [List.lookup]
      · have hba : (k == a) = false := by simp [h]
        simp [List.lookup, hba, ih]

/-- A key found in the front part of an appended association list. -/
theorem lookup_append_of_some {β : Type} (l₁ l₂ : List (String × β)) (k : String)
    (v : β) (h : l₁.lookup k = some v) : (l₁ ++ l₂).lookup k = some v := by
  induction l₁ with
  | nil => simp [List.lookup] at h
  | cons hd t ih =>
      obtain ⟨a, b⟩ := hd
      by_cases hk : k = a
      · subst hk; simp [List.lookup] at h ⊢; exact h
      · have hba : (k == a) = false := by simp [hk]
        simp [List.lookup, hba] at h ⊢; exact ih h

/-- A key absent from the front part of an appended association list. -/
theorem lookup_append_of_none {β : Type} (l₁ l₂ : List (String × β)) (k : String)
    (h : l₁.lookup k = none) : (l₁ ++ l₂).lookup k = l₂.lookup k := by
  induction l₁ with
  | nil => rfl
  | cons hd t ih =>
      obtain ⟨a, b⟩ := hd
      by_cases hk : k = a
      · subst hk; simp [List.lookup] at h
      · have hba : (k == a) = false := by simp [hk]
        simp only [List.lookup, hba] at h ⊢
        exact ih h

/-- Looking a key up after filtering on the key and mapping the value,
when the key satisfies the filter. -/
theorem lookup_filter_map_vals {β : Type} (l : List (String × Conn))
    (q : String → Bool) (g : Conn → β) (k : String) (v : Conn)
    (hq : q k = true) (hl : l.lookup k = some v) :
    ((l.filter (fun p => q p.1)).map (fun p => (p.1, g p.2))).lookup k
      = some (g v) := by
  induction l with
  | nil => simp [List.lookup] at hl
  | cons hd t ih =>
      obtain ⟨a, b⟩ := hd
      by_cases hk : k = a
      · subst hk
        simp [List.lookup] at hl
        subst hl
        simp [List.filter, hq, List.lookup]
      · have hba : (k == a) = false := by simp [hk]
        simp [List.lookup, hba] at hl
        cases hqa : q a <;>
          simp [List.filter, hqa, List.lookup, hba, ih hl]

/-- Claim C8: the health check reports every registered service without
a handle as `NotConnected`/unhealthy, every service with a handle (with
or without a registered address) under the handle's transport state
name with `healthy` exactly when the state is Ready; it is a total
function — no error is ever returned. -/
theorem health_check_reports (cm : ConnectionManager) (name : String) :
    ((cm.addresses.lookup name).isSome = true → cm.connections.lookup name = none →
      cm.HealthCheck.lookup name = some notConnectedHealth)
    ∧ (∀ conn, (cm.addresses.lookup name).isSome = true →
        cm.connections.lookup name = some conn →
        cm.HealthCheck.lookup name = some (connHealth conn.state))
    ∧ (∀ conn, cm.addresses.lookup name = none →
        cm.connections.lookup name = some conn →
        cm.HealthCheck.lookup name = some (connHealth conn.state))
    ∧ (∀ s, (connHealth s).state = s.str
        ∧ ((connHealth s).healthy = true ↔ s = ConnState.Ready))
    ∧ notConnectedHealth.healthy = false := by
  refine ⟨?_, ?_, ?_, ?_, rfl⟩
  · intro haddr hconn
    obtain ⟨addr, haddr'⟩ := Option.isSome_iff_exists.mp haddr
    have hfa := lookup_map_keys cm.addresses
      (fun n => match cm.connections.lookup n with
        | none => notConnectedHealth
        | some c => connHealth c.state) name
    simp only [haddr', hconn, Option.map_some'] at hfa
    simp only [ConnectionManager.HealthCheck]
    exact lookup_append_of_some _ _ _ _ hfa
  · intro conn haddr hconn
    obtain ⟨addr, haddr'⟩ := Option.isSome_iff_exists.mp haddr
    have hfa := lookup_map_keys cm.addresses
      (fun n => match cm.connections.lookup n with
        | none => notConnectedHealth
        | some c => connHealth c.state) name
    simp only [haddr', hconn, Option.map_some'] at hfa
    simp only [ConnectionManager.HealthCheck]
    exact lookup_append_of_some _ _ _ _ hfa
  · intro conn haddr hconn
    have hfa := lookup_map_keys cm.addresses
      (fun n => match cm.connections.lookup n with
        | none => notConnectedHealth
        | some c => connHealth c.state) name
    simp only [haddr, Option.map_none'] at hfa
    simp only [ConnectionManager.HealthCheck]
    rw [lookup_append_of_none _ _ _ hfa]
    have hq : (fun n => (cm.addresses.lookup n).isNone) name = true := by
      simp [haddr]
    exact lookup_filter_map_vals cm.connections
      (fun n => (cm.addresses.lookup n).isNone)
      (fun c => connHealth c.state) name conn hq hconn
  · intro s
    cases s <;> simp [connHealth, ConnState.str]

/-- Witness for claim C8: on a manager with a registered-but-undialed
service, a Ready handle, and an orphaned TransientFailure handle, the
health report holds the three expected entries. -/
theorem health_check_reports_witness :
    cmHealthFixture.HealthCheck.lookup "svcA" = some notConnectedHealth
    ∧ cmHealthFixture.HealthCheck.lookup "svcB" = some (connHealth ConnState.Ready)
    ∧ cmHealthFixture.HealthCheck.lookup "svcC"
        = some (connHealth ConnState.TransientFailure) :=
  ⟨(health_check_reports cmHealthFixture "svcA").1 (by decide) (by decide),
   (health_check_reports cmHealthFixture "svcB").2.1 ⟨1, ConnState.Ready, none⟩
     (by decide) (by decide),
   (health_check_reports cmHealthFixture "svcC").2.2.1
     ⟨2, ConnState.TransientFailure, none⟩ (by decide) (by decide)⟩
